import Mathlib

/-!
Shallow embedding of the risk-based contextual authentication engine of
`src/Backend/controller/auth.controller.js` (Banking-Fraud-Detection).

Conventions of the embedding:
- Timestamps are `Nat` milliseconds (JavaScript `Date.now()`).
- MongoDB documents become Lean structures; an absent / `undefined` field is
  `Option.none`; a `findOne` over a filter becomes `List.find?` over a list of
  user records with a decidable match predicate.
- External collaborators (the risk scorer `evaluateContext` from
  `utils/contextEvaluator.js`, bcrypt comparison, captcha verification,
  `crypto.randomBytes`, `generateVerificationCode`, `getLocationName`,
  `Date.now`, `process.env.CLIENT_URL`) are bundled into an `Externs` record:
  the controller under verification is quantified over their behaviour.
- An HTTP response together with its side effects (the persisted user record,
  the cookie set by `generateTokenAndSetCookie`, the emails dispatched) is an
  `HttpResult` value; `userOut` is the user record as persisted when the
  handler finishes (equal to the input record when nothing was written).
- The JavaScript `throw`/`catch` paths are embedded as the result the catch
  block produces (`login` wraps its risk logic in an inner try whose catch
  answers 500 "Server error"; accessing `context.device` with `context`
  `undefined` throws there).
-/

namespace BankFraud

/-- A geographic point `{lat, lon}` as stored in `user.locations`. -/
structure GeoPoint where
  lat : Int
  lon : Int
deriving DecidableEq, Repr

/-- One login attempt's observed signals (`context` in the request body). -/
structure LoginContext where
  ip : String
  device : String
  location : GeoPoint
  typingSpeed : Int
  loginHour : Nat
deriving DecidableEq, Repr

/-- One entry of the audit trail `user.contextLogs`. -/
structure ContextLogEntry where
  ip : String
  device : String
  location : GeoPoint
  locationName : String
  timestamp : Nat
  riskScore : Nat
deriving DecidableEq, Repr

/-- The behavioral baseline `user.behavioralProfile`. -/
structure BehavioralProfile where
  typingSpeed : Int
  loginHours : List Nat
deriving DecidableEq, Repr

/-- The persisted user record (identity fields, TrustStore fields and the two
token slots, colocated as in the Mongoose user model). -/
structure UserRec where
  email : String
  password : String
  name : String
  isVerified : Bool
  verificationToken : Option String
  verificationTokenExpiresAt : Option Nat
  resetPasswordToken : Option String
  resetPasswordExpiresAt : Option Nat
  trustedIPs : List String
  trustedDevices : List String
  locations : List GeoPoint
  contextLogs : List ContextLogEntry
  behavioralProfile : BehavioralProfile
  riskScore : Nat
  lastLogin : Option Nat
deriving DecidableEq, Repr

/-- The TrustStore portion of a user record: the trusted sets, the location
history, the behavioral baseline and the context log. -/
structure TrustStoreView where
  trustedIPs : List String
  trustedDevices : List String
  locations : List GeoPoint
  contextLogs : List ContextLogEntry
  behavioralProfile : BehavioralProfile
deriving DecidableEq, Repr

/-- Project the TrustStore out of a user record. -/
def trustStoreOf (u : UserRec) : TrustStoreView :=
  { trustedIPs := u.trustedIPs
    trustedDevices := u.trustedDevices
    locations := u.locations
    contextLogs := u.contextLogs
    behavioralProfile := u.behavioralProfile }

/-- The JSON user object attached to a success response: the spread
`{...user._doc, password: undefined, ...}`. A field that the handler sets to
`undefined` is `none`; a field the spread copies through unchanged is `some`.
The spread copies every document field, in particular `contextLogs`. -/
structure UserPayload where
  email : String
  name : String
  isVerified : Bool
  verificationToken : Option String
  verificationTokenExpiresAt : Option Nat
  resetPasswordToken : Option String
  resetPasswordExpiresAt : Option Nat
  password : Option String
  trustedIPs : Option (List String)
  trustedDevices : Option (List String)
  locations : Option (List GeoPoint)
  contextLogs : Option (List ContextLogEntry)
  behavioralProfile : Option BehavioralProfile
  riskScore : Option Nat
deriving DecidableEq, Repr

/-- The payload built by `login` and `verifyTwoFactorAuth`: the user document
with `password`, `trustedIPs`, `trustedDevices`, `locations`,
`behavioralProfile` and `riskScore` overwritten with `undefined`; the spread
leaves every other field in place, notably `contextLogs`, which carries the
per-attempt ip/device/location audit trail un-stripped. -/
def sanitizedPayload (u : UserRec) : UserPayload :=
  { email := u.email
    name := u.name
    isVerified := u.isVerified
    verificationToken := u.verificationToken
    verificationTokenExpiresAt := u.verificationTokenExpiresAt
    resetPasswordToken := u.resetPasswordToken
    resetPasswordExpiresAt := u.resetPasswordExpiresAt
    password := none
    trustedIPs := none
    trustedDevices := none
    locations := none
    contextLogs := some u.contextLogs
    behavioralProfile := none
    riskScore := none }

/-- The payload built by `verifyEmail`: the user document with only
`password` overwritten with `undefined`. -/
def passwordStrippedPayload (u : UserRec) : UserPayload :=
  { email := u.email
    name := u.name
    isVerified := u.isVerified
    verificationToken := u.verificationToken
    verificationTokenExpiresAt := u.verificationTokenExpiresAt
    resetPasswordToken := u.resetPasswordToken
    resetPasswordExpiresAt := u.resetPasswordExpiresAt
    password := none
    trustedIPs := some u.trustedIPs
    trustedDevices := some u.trustedDevices
    locations := some u.locations
    contextLogs := some u.contextLogs
    behavioralProfile := some u.behavioralProfile
    riskScore := some u.riskScore }

/-- One dispatched email, as sent through `nodemailer/emails.js`. -/
inductive EmailEvent where
  | newDeviceAlert (email name : String) (ctx : LoginContext) (resetLink : String)
  | suspiciousWarning (email name : String) (ctx : LoginContext) (risk : Nat)
  | twoFactorAuthEmail (email name code : String) (ctx : LoginContext)
  | verificationEmail (email code : String)
  | welcomeEmail (email name : String)
  | resetPasswordEmail (email link : String)
deriving DecidableEq, Repr

/-- The three terminal branches of the risk policy inside `login`
(`Verified` second factors also land in `allowed`). -/
inductive RiskOutcome where
  | allowed
  | twoFactorPending
  | blocked
deriving DecidableEq, Repr

/-- An HTTP response together with the handler's side effects. -/
structure HttpResult where
  status : Nat
  success : Bool
  message : String
  cookieSet : Bool
  require2FA : Bool
  outcome : Option RiskOutcome
  userOut : Option UserRec
  emails : List EmailEvent
  payload : Option UserPayload
deriving DecidableEq, Repr

/-- A response produced before any user record was identified or written. -/
def errResult (status : Nat) (msg : String) : HttpResult :=
  { status := status
    success := false
    message := msg
    cookieSet := false
    require2FA := false
    outcome := none
    userOut := none
    emails := []
    payload := none }

/-- A rejection produced after the user was identified but before any write:
the persisted record is the unchanged input record. -/
def userErrResult (status : Nat) (msg : String) (u : UserRec) : HttpResult :=
  { errResult status msg with userOut := some u }

/-- The external collaborators the controller calls, bundled: the risk scorer
`evaluateContext` (from `utils/contextEvaluator.js`), `bcrypt.compare`,
`verifyCaptcha`, the fresh `crypto.randomBytes(20).toString("hex")` value, the
fresh `generateVerificationCode()` value, the `getLocationName` result,
`Date.now()` and `process.env.CLIENT_URL`. -/
structure Externs where
  evalContext : LoginContext → UserRec → Nat
  bcryptCompare : String → String → Bool
  captchaOK : String → Bool
  newResetToken : String
  newVerificationCode : String
  locationName : String
  now : Nat
  clientUrl : String

/-- JavaScript falsiness of an optional string field (`!x` is true for a
missing field and for the empty string). -/
def falsyStr : Option String → Bool
  | none => true
  | some s => s == ""

/-- The body of a `POST /login` request. -/
structure LoginRequest where
  email : Option String
  password : Option String
  context : Option LoginContext
  captcha : Option String
deriving DecidableEq, Repr

/-- Modelled from the spec: the Profile Updater `updateContextProfile` lives
in `src/Backend/utils/updateContextProfile.js`, which is not among the
provided sources. Following spec section 4.3, fold a context into the
TrustStore: append the context (with the resolved location name) to the
context log tagged with the score, add the ip and the device to the trusted
sets with set semantics (no duplicate entries), append the location to the
known locations, incorporate the typing speed into the baseline as an
incremental moving average and the login hour into the typical hours set;
`riskScore` records the last computed score. -/
def updateContextProfile (u : UserRec) (ctx : LoginContext) (score : Nat)
    (locName : String) (now : Nat) : UserRec :=
  { u with
    trustedIPs :=
      if u.trustedIPs.contains ctx.ip then u.trustedIPs
      else u.trustedIPs ++ [ctx.ip]
    trustedDevices :=
      if u.trustedDevices.contains ctx.device then u.trustedDevices
      else u.trustedDevices ++ [ctx.device]
    locations := u.locations ++ [ctx.location]
    contextLogs := u.contextLogs ++
      [{ ip := ctx.ip
         device := ctx.device
         location := ctx.location
         locationName := locName
         timestamp := now
         riskScore := score }]
    behavioralProfile :=
      { typingSpeed := (u.behavioralProfile.typingSpeed + ctx.typingSpeed) / 2
        loginHours :=
          if u.behavioralProfile.loginHours.contains ctx.loginHour then
            u.behavioralProfile.loginHours
          else u.behavioralProfile.loginHours ++ [ctx.loginHour] }
    riskScore := score }

/-- The new-device side channel of `login` (lines 150-157): when the device is
absent from `trustedDevices`, store a fresh reset token with a 30-minute
expiry; otherwise leave the record untouched. -/
def deviceStep (e : Externs) (ctx : LoginContext) (u : UserRec) : UserRec :=
  if u.trustedDevices.contains ctx.device then u
  else
    { u with
      resetPasswordToken := some e.newResetToken
      resetPasswordExpiresAt := some (e.now + 30 * 60 * 1000) }

/-- The emails the new-device side channel dispatches (line 158-163). -/
def deviceEmails (e : Externs) (ctx : LoginContext) (u : UserRec) : List EmailEvent :=
  if u.trustedDevices.contains ctx.device then []
  else
    [EmailEvent.newDeviceAlert u.email u.name ctx
      (e.clientUrl ++ "/reset-password/" ++ e.newResetToken)]

/-- The `login` handler (auth.controller.js lines 117-233). `findUser` is the
result of `User.findOne({email})`. -/
def login (e : Externs) (req : LoginRequest) (findUser : Option UserRec) : HttpResult :=
  if falsyStr req.email || falsyStr req.password then
    errResult 400 "All fields are required!"
  else if falsyStr req.captcha then
    errResult 400 "Captcha is required!"
  else
    match findUser with
    | none => errResult 400 "User not found!"
    | some user =>
      if !e.bcryptCompare (req.password.getD "") user.password then
        userErrResult 400 "Wrong Password!" user
      else if !e.captchaOK (req.captcha.getD "") then
        userErrResult 403 "Bot detected" user
      else
        match req.context with
        | none =>
          -- `context.device` throws on an undefined context; the inner catch
          -- answers 500 before any write happened.
          userErrResult 500 "Server error" user
        | some ctx =>
          let u1 := deviceStep e ctx user
          let mails := deviceEmails e ctx user
          let risk := e.evalContext ctx u1
          if 10 ≤ risk then
            { status := 403
              success := false
              message := "Suspicious activity detected, login blocked for your security. Check your email for details."
              cookieSet := false
              require2FA := false
              outcome := some RiskOutcome.blocked
              userOut := some u1
              emails := mails ++
                [EmailEvent.suspiciousWarning user.email user.name ctx risk]
              payload := none }
          else if 5 ≤ risk then
            let u2 :=
              { u1 with
                verificationToken := some e.newVerificationCode
                verificationTokenExpiresAt := some (e.now + 5 * 60 * 1000) }
            let u3 := updateContextProfile u2 ctx risk e.locationName e.now
            { status := 200
              success := true
              message := "Two-factor authentication required"
              cookieSet := false
              require2FA := true
              outcome := some RiskOutcome.twoFactorPending
              userOut := some u3
              emails := mails ++
                [EmailEvent.twoFactorAuthEmail user.email user.name
                  e.newVerificationCode ctx]
              payload := none }
          else
            let u2 := { u1 with lastLogin := some e.now }
            let u3 := updateContextProfile u2 ctx risk e.locationName e.now
            { status := 200
              success := true
              message := "Logged in successfully"
              cookieSet := true
              require2FA := false
              outcome := some RiskOutcome.allowed
              userOut := some u3
              emails := mails
              payload := some (sanitizedPayload u3) }

/-- The body of a `POST /verify-2fa` request. -/
structure TwoFactorRequest where
  email : Option String
  verificationCode : Option String
deriving DecidableEq, Repr

/-- The MongoDB filter of `verifyTwoFactorAuth`: same email, stored
verification token equal to the submitted code, expiry strictly in the future
(`$gt: Date.now()`; an absent expiry never satisfies `$gt`). -/
def twoFactorQueryMatch (now : Nat) (email code : String) (u : UserRec) : Bool :=
  u.email == email && u.verificationToken == some code &&
    match u.verificationTokenExpiresAt with
    | some t => now < t
    | none => false

/-- The `verifyTwoFactorAuth` handler (lines 493-541). `db` is the user
collection `User.findOne` searches. -/
def verifyTwoFactorAuth (e : Externs) (db : List UserRec) (req : TwoFactorRequest) :
    HttpResult :=
  if falsyStr req.email || falsyStr req.verificationCode then
    errResult 400 "Email and verification code are required!"
  else
    match db.find?
        (twoFactorQueryMatch e.now (req.email.getD "") (req.verificationCode.getD "")) with
    | none => errResult 400 "Invalid or expired verification code"
    | some user =>
      let u1 :=
        { user with
          verificationToken := none
          verificationTokenExpiresAt := none }
      { status := 200
        success := true
        message := "Two-factor authentication completed successfully"
        cookieSet := true
        require2FA := false
        outcome := some RiskOutcome.allowed
        userOut := some u1
        emails := []
        payload := some (sanitizedPayload u1) }

/-- The MongoDB filter of `verifyEmail`: stored verification token equal to
the submitted code, expiry strictly in the future. -/
def emailQueryMatch (now : Nat) (code : String) (u : UserRec) : Bool :=
  u.verificationToken == some code &&
    match u.verificationTokenExpiresAt with
    | some t => now < t
    | none => false

/-- The `verifyEmail` handler (lines 235-268). -/
def verifyEmail (e : Externs) (db : List UserRec) (code : String) : HttpResult :=
  match db.find? (emailQueryMatch e.now code) with
  | none => errResult 400 "Invalid or expired verification code"
  | some user =>
    let u1 :=
      { user with
        isVerified := true
        verificationToken := none
        verificationTokenExpiresAt := none }
    { status := 200
      success := true
      message := "Email verified successfully"
      cookieSet := false
      require2FA := false
      outcome := none
      userOut := some u1
      emails := [EmailEvent.welcomeEmail user.email user.name]
      payload := some (passwordStrippedPayload u1) }

/-- The `resendVerificationCode` handler (lines 270-303). -/
def resendVerificationCode (e : Externs) (email : Option String)
    (findUser : Option UserRec) : HttpResult :=
  if falsyStr email then
    errResult 400 "Email is required!"
  else
    match findUser with
    | none => errResult 400 "User not found!"
    | some user =>
      if user.isVerified then
        userErrResult 400 "User already verified!" user
      else
        let u1 :=
          { user with
            verificationToken := some e.newVerificationCode
            verificationTokenExpiresAt := some (e.now + 60 * 1000) }
        { status := 200
          success := true
          message := "Verification code resent successfully"
          cookieSet := false
          require2FA := false
          outcome := none
          userOut := some u1
          emails := [EmailEvent.verificationEmail user.email e.newVerificationCode]
          payload := none }

/-- The `forgotPassword` handler (lines 305-341). The falsy-email guard sends
a 400 response but has no `return` (line 309), so execution falls through:
when the lookup still yields a user (Mongoose drops an undefined filter
field, so the query degenerates and returns the first document), the reset
token is written and the reset email dispatched even though the client
already received the 400; the later 200 attempt fails on the already-sent
headers. The result records the response the client received together with
the net writes and emails. `findUser` is what `User.findOne` returned for
the request's filter. -/
def forgotPassword (e : Externs) (email : Option String)
    (findUser : Option UserRec) : HttpResult :=
  match findUser with
  | none =>
    if falsyStr email then errResult 400 "Email is required!"
    else errResult 400 "User not found!"
  | some user =>
    let u1 :=
      { user with
        resetPasswordToken := some e.newResetToken
        resetPasswordExpiresAt := some (e.now + 30 * 60 * 1000) }
    if falsyStr email then
      { status := 400
        success := false
        message := "Email is required!"
        cookieSet := false
        require2FA := false
        outcome := none
        userOut := some u1
        emails := [EmailEvent.resetPasswordEmail user.email
          (e.clientUrl ++ "/reset-password/" ++ e.newResetToken)]
        payload := none }
    else
      { status := 200
        success := true
        message := "Password reset token sent to your email"
        cookieSet := false
        require2FA := false
        outcome := none
        userOut := some u1
        emails := [EmailEvent.resetPasswordEmail user.email
          (e.clientUrl ++ "/reset-password/" ++ e.newResetToken)]
        payload := none }

/-- The credential and captcha gates of `login` all passing, with `ctx` the
request's context: the attempt reaches the risk logic. -/
def ValidLoginShape (e : Externs) (req : LoginRequest) (user : UserRec)
    (ctx : LoginContext) : Prop :=
  falsyStr req.email = false ∧ falsyStr req.password = false ∧
  falsyStr req.captcha = false ∧ req.context = some ctx ∧
  e.bcryptCompare (req.password.getD "") user.password = true ∧
  e.captchaOK (req.captcha.getD "") = true

instance (e : Externs) (req : LoginRequest) (user : UserRec) (ctx : LoginContext) :
    Decidable (ValidLoginShape e req user ctx) := by
  unfold ValidLoginShape; infer_instance

/-! Concrete sample values used by the closed witness theorems. -/

/-- A context from an untrusted device at an unusual hour. -/
def sampleCtx : LoginContext :=
  { ip := "9.9.9.9"
    device := "chrome-win-new"
    location := { lat := 10, lon := 20 }
    typingSpeed := 50
    loginHour := 3 }

/-- A context matching `sampleUser`'s trusted device and IP. -/
def trustedCtx : LoginContext :=
  { ip := "1.2.3.4"
    device := "chrome-macos-abc"
    location := { lat := 0, lon := 0 }
    typingSpeed := 40
    loginHour := 9 }

/-- An established user with one trusted IP, device and location. -/
def sampleUser : UserRec :=
  { email := "alice@example.com"
    password := "bcrypt-hash"
    name := "Alice"
    isVerified := true
    verificationToken := none
    verificationTokenExpiresAt := none
    resetPasswordToken := none
    resetPasswordExpiresAt := none
    trustedIPs := ["1.2.3.4"]
    trustedDevices := ["chrome-macos-abc"]
    locations := [{ lat := 0, lon := 0 }]
    contextLogs := []
    behavioralProfile := { typingSpeed := 40, loginHours := [9] }
    riskScore := 0
    lastLogin := none }

/-- Externs whose scorer always answers 12 (a blocked attempt). -/
def highRiskExterns : Externs :=
  { evalContext := fun _ _ => 12
    bcryptCompare := fun _ _ => true
    captchaOK := fun _ => true
    newResetToken := "aabbccddeeff00112233aabbccddeeff00112233"
    newVerificationCode := "123456"
    locationName := "Testville"
    now := 1000000
    clientUrl := "http://client.example" }

/-- Externs whose scorer always answers 7 (a two-factor attempt). -/
def midRiskExterns : Externs :=
  { highRiskExterns with evalContext := fun _ _ => 7 }

/-- Externs whose scorer always answers 0 (an allowed attempt). -/
def lowRiskExterns : Externs :=
  { highRiskExterns with evalContext := fun _ _ => 0 }

/-- A well-formed login request carrying `sampleCtx`. -/
def sampleLoginReq : LoginRequest :=
  { email := some "alice@example.com"
    password := some "secret-pw"
    context := some sampleCtx
    captcha := some "captcha-token" }

/-- A login request whose context field is absent. -/
def missingCtxReq : LoginRequest :=
  { sampleLoginReq with context := none }

/-! Theorems settling the claims. -/

/-- C1: for every login attempt that passed the credential and captcha gates
and whose computed risk score is at least 10, the outcome is Blocked: a 403
rejection, a suspicious-activity alert carrying the score and the context is
dispatched, no session cookie is set, and the persisted record differs from
the input record at most in the reset-token fields, so the TrustStore
(trusted sets, locations, behavioral baseline, context log) is unchanged. -/
theorem c1_high_risk_blocked (e : Externs) (req : LoginRequest) (user : UserRec)
    (ctx : LoginContext) (hv : ValidLoginShape e req user ctx)
    (hrisk : 10 ≤ e.evalContext ctx (deviceStep e ctx user)) :
    (login e req (some user)).outcome = some RiskOutcome.blocked ∧
    (login e req (some user)).status = 403 ∧
    (login e req (some user)).success = false ∧
    (login e req (some user)).cookieSet = false ∧
    EmailEvent.suspiciousWarning user.email user.name ctx
      (e.evalContext ctx (deviceStep e ctx user)) ∈ (login e req (some user)).emails ∧
    (login e req (some user)).userOut = some (deviceStep e ctx user) ∧
    trustStoreOf (deviceStep e ctx user) = trustStoreOf user := by
  obtain ⟨h1, h2, h3, h4, h5, h6⟩ := hv
  have hts : trustStoreOf (deviceStep e ctx user) = trustStoreOf user := by
    unfold deviceStep
    split <;> rfl
  simp [login, h1, h2, h3, h4, h5, h6, hrisk, hts]

/-- Closed witness for `c1_high_risk_blocked` at a concrete blocked attempt. -/
theorem c1_high_risk_blocked_witness :
    (login highRiskExterns sampleLoginReq (some sampleUser)).outcome =
      some RiskOutcome.blocked ∧
    (login highRiskExterns sampleLoginReq (some sampleUser)).status = 403 ∧
    (login highRiskExterns sampleLoginReq (some sampleUser)).success = false ∧
    (login highRiskExterns sampleLoginReq (some sampleUser)).cookieSet = false ∧
    EmailEvent.suspiciousWarning sampleUser.email sampleUser.name sampleCtx
      (highRiskExterns.evalContext sampleCtx
        (deviceStep highRiskExterns sampleCtx sampleUser)) ∈
      (login highRiskExterns sampleLoginReq (some sampleUser)).emails ∧
    (login highRiskExterns sampleLoginReq (some sampleUser)).userOut =
      some (deviceStep highRiskExterns sampleCtx sampleUser) ∧
    trustStoreOf (deviceStep highRiskExterns sampleCtx sampleUser) =
      trustStoreOf sampleUser :=
  c1_high_risk_blocked highRiskExterns sampleLoginReq sampleUser sampleCtx
    (by decide) (by decide)

/-- C2: for every login attempt that passed the credential and captcha gates
and whose computed risk score lies in [5, 10), the outcome is
TwoFactorPending: the fresh verification code is stored on the user with an
expiry 5 minutes (300000 ms) past issuance time, it is delivered via the
notifier, the context is folded into the TrustStore already in this branch
(before any second-factor check), and no session cookie is set. -/
theorem c2_mid_risk_two_factor (e : Externs) (req : LoginRequest) (user : UserRec)
    (ctx : LoginContext) (hv : ValidLoginShape e req user ctx)
    (hlo : 5 ≤ e.evalContext ctx (deviceStep e ctx user))
    (hhi : e.evalContext ctx (deviceStep e ctx user) < 10) :
    (login e req (some user)).outcome = some RiskOutcome.twoFactorPending ∧
    (login e req (some user)).success = true ∧
    (login e req (some user)).require2FA = true ∧
    (login e req (some user)).cookieSet = false ∧
    EmailEvent.twoFactorAuthEmail user.email user.name e.newVerificationCode ctx ∈
      (login e req (some user)).emails ∧
    ∃ u3, (login e req (some user)).userOut = some u3 ∧
      u3 = updateContextProfile
        { deviceStep e ctx user with
          verificationToken := some e.newVerificationCode
          verificationTokenExpiresAt := some (e.now + 5 * 60 * 1000) }
        ctx (e.evalContext ctx (deviceStep e ctx user)) e.locationName e.now ∧
      u3.verificationToken = some e.newVerificationCode ∧
      u3.verificationTokenExpiresAt = some (e.now + 5 * 60 * 1000) ∧
      ctx.ip ∈ u3.trustedIPs ∧ ctx.device ∈ u3.trustedDevices ∧
      u3.contextLogs.length = user.contextLogs.length + 1 := by
  obtain ⟨h1, h2, h3, h4, h5, h6⟩ := hv
  have hhi' : ¬ 10 ≤ e.evalContext ctx (deviceStep e ctx user) := by omega
  have hdev : (deviceStep e ctx user).trustedDevices = user.trustedDevices := by
    unfold deviceStep; split <;> rfl
  have hctxlog : (deviceStep e ctx user).contextLogs = user.contextLogs := by
    unfold deviceStep; split <;> rfl
  refine ⟨?_, ?_, ?_, ?_, ?_, ?_⟩ <;>
    simp [login, h1, h2, h3, h4, h5, h6, hlo, hhi'] <;>
    simp [updateContextProfile, hdev, hctxlog] <;>
    constructor <;> split <;>
    simp_all [List.contains_iff_exists_mem_beq]

/-- Closed witness for `c2_mid_risk_two_factor` at a concrete mid-risk
attempt. -/
theorem c2_mid_risk_two_factor_witness :
    (login midRiskExterns sampleLoginReq (some sampleUser)).outcome =
      some RiskOutcome.twoFactorPending ∧
    (login midRiskExterns sampleLoginReq (some sampleUser)).success = true ∧
    (login midRiskExterns sampleLoginReq (some sampleUser)).require2FA = true ∧
    (login midRiskExterns sampleLoginReq (some sampleUser)).cookieSet = false ∧
    EmailEvent.twoFactorAuthEmail sampleUser.email sampleUser.name
      midRiskExterns.newVerificationCode sampleCtx ∈
      (login midRiskExterns sampleLoginReq (some sampleUser)).emails ∧
    ∃ u3, (login midRiskExterns sampleLoginReq (some sampleUser)).userOut = some u3 ∧
      u3 = updateContextProfile
        { deviceStep midRiskExterns sampleCtx sampleUser with
          verificationToken := some midRiskExterns.newVerificationCode
          verificationTokenExpiresAt := some (midRiskExterns.now + 5 * 60 * 1000) }
        sampleCtx (midRiskExterns.evalContext sampleCtx
          (deviceStep midRiskExterns sampleCtx sampleUser))
        midRiskExterns.locationName midRiskExterns.now ∧
      u3.verificationToken = some midRiskExterns.newVerificationCode ∧
      u3.verificationTokenExpiresAt = some (midRiskExterns.now + 5 * 60 * 1000) ∧
      sampleCtx.ip ∈ u3.trustedIPs ∧ sampleCtx.device ∈ u3.trustedDevices ∧
      u3.contextLogs.length = sampleUser.contextLogs.length + 1 :=
  c2_mid_risk_two_factor midRiskExterns sampleLoginReq sampleUser sampleCtx
    (by decide) (by decide) (by decide)

/-- C3: with both request fields present, second-factor verification succeeds
if and only if the store holds a user for that email whose stored, non-expired
verification token matches the submitted code; on success the token fields
are cleared on the persisted record and the session cookie is set; on failure
the response is a 400 with the single message "Invalid or expired verification
code" (the same constant whether the code was wrong or expired), no cookie and
no write. -/
theorem c3_two_factor_verification (e : Externs) (db : List UserRec)
    (em cd : String) (hem : em ≠ "") (hcd : cd ≠ "") :
    ((verifyTwoFactorAuth e db { email := some em, verificationCode := some cd }).success
        = true ↔ ∃ u ∈ db, twoFactorQueryMatch e.now em cd u = true) ∧
    (∀ u, db.find? (twoFactorQueryMatch e.now em cd) = some u →
      (verifyTwoFactorAuth e db { email := some em, verificationCode := some cd }).userOut
          = some { u with verificationToken := none, verificationTokenExpiresAt := none } ∧
      (verifyTwoFactorAuth e db { email := some em, verificationCode := some cd }).cookieSet
          = true) ∧
    ((verifyTwoFactorAuth e db { email := some em, verificationCode := some cd }).success
        = false →
      (verifyTwoFactorAuth e db { email := some em, verificationCode := some cd }).status
          = 400 ∧
      (verifyTwoFactorAuth e db { email := some em, verificationCode := some cd }).message
          = "Invalid or expired verification code" ∧
      (verifyTwoFactorAuth e db { email := some em, verificationCode := some cd }).cookieSet
          = false ∧
      (verifyTwoFactorAuth e db { email := some em, verificationCode := some cd }).userOut
          = none) := by
  have hfal : falsyStr (some em) = false := by
    simp [falsyStr, hem]
  have hfal2 : falsyStr (some cd) = false := by
    simp [falsyStr, hcd]
  refine ⟨?_, ?_, ?_⟩
  · rw [← List.find?_isSome (p := twoFactorQueryMatch e.now em cd)]
    simp only [verifyTwoFactorAuth, hfal, hfal2, Bool.or_self, Bool.false_eq_true,
      if_false, Option.getD_some]
    cases h : db.find? (twoFactorQueryMatch e.now em cd) <;>
      simp [h, errResult]
  · intro u hu
    simp [verifyTwoFactorAuth, hfal, hfal2, hu]
  · simp only [verifyTwoFactorAuth, hfal, hfal2, Bool.or_self, Bool.false_eq_true,
      if_false, Option.getD_some]
    cases h : db.find? (twoFactorQueryMatch e.now em cd) <;>
      simp [h, errResult]

/-- Closed witness for `c3_two_factor_verification`: a live matching token in
a one-user store validates and is cleared. -/
theorem c3_two_factor_verification_witness :
    ((verifyTwoFactorAuth highRiskExterns
        [{ sampleUser with
            verificationToken := some "123456"
            verificationTokenExpiresAt := some 2000000 }]
        { email := some "alice@example.com", verificationCode := some "123456" }).success
      = true ↔
      ∃ u ∈ [{ sampleUser with
          verificationToken := some "123456"
          verificationTokenExpiresAt := some 2000000 }],
        twoFactorQueryMatch highRiskExterns.now "alice@example.com" "123456" u = true) ∧
    (∀ u, List.find?
        (twoFactorQueryMatch highRiskExterns.now "alice@example.com" "123456")
        [{ sampleUser with
            verificationToken := some "123456"
            verificationTokenExpiresAt := some 2000000 }] = some u →
      (verifyTwoFactorAuth highRiskExterns
        [{ sampleUser with
            verificationToken := some "123456"
            verificationTokenExpiresAt := some 2000000 }]
        { email := some "alice@example.com", verificationCode := some "123456" }).userOut
          = some { u with verificationToken := none, verificationTokenExpiresAt := none } ∧
      (verifyTwoFactorAuth highRiskExterns
        [{ sampleUser with
            verificationToken := some "123456"
            verificationTokenExpiresAt := some 2000000 }]
        { email := some "alice@example.com", verificationCode := some "123456" }).cookieSet
          = true) ∧
    ((verifyTwoFactorAuth highRiskExterns
        [{ sampleUser with
            verificationToken := some "123456"
            verificationTokenExpiresAt := some 2000000 }]
        { email := some "alice@example.com", verificationCode := some "123456" }).success
        = false →
      (verifyTwoFactorAuth highRiskExterns
        [{ sampleUser with
            verificationToken := some "123456"
            verificationTokenExpiresAt := some 2000000 }]
        { email := some "alice@example.com", verificationCode := some "123456" }).status
          = 400 ∧
      (verifyTwoFactorAuth highRiskExterns
        [{ sampleUser with
            verificationToken := some "123456"
            verificationTokenExpiresAt := some 2000000 }]
        { email := some "alice@example.com", verificationCode := some "123456" }).message
          = "Invalid or expired verification code" ∧
      (verifyTwoFactorAuth highRiskExterns
        [{ sampleUser with
            verificationToken := some "123456"
            verificationTokenExpiresAt := some 2000000 }]
        { email := some "alice@example.com", verificationCode := some "123456" }).cookieSet
          = false ∧
      (verifyTwoFactorAuth highRiskExterns
        [{ sampleUser with
            verificationToken := some "123456"
            verificationTokenExpiresAt := some 2000000 }]
        { email := some "alice@example.com", verificationCode := some "123456" }).userOut
          = none) :=
  c3_two_factor_verification highRiskExterns
    [{ sampleUser with
        verificationToken := some "123456"
        verificationTokenExpiresAt := some 2000000 }]
    "alice@example.com" "123456" (by decide) (by decide)

/-- C4: a stored verification token whose expiry is not strictly past the
current time never matches either validation filter, even when the submitted
code equals the stored code exactly, so both `verifyTwoFactorAuth` and
`verifyEmail` reject an expired token that is still present in storage. -/
theorem c4_expired_token_never_validates (e : Externs) (u : UserRec)
    (code : String) (t : Nat) (hcode : u.verificationToken = some code)
    (hexp : u.verificationTokenExpiresAt = some t) (ht : t ≤ e.now)
    (hem : u.email ≠ "") (hc : code ≠ "") :
    twoFactorQueryMatch e.now u.email code u = false ∧
    emailQueryMatch e.now code u = false ∧
    (verifyTwoFactorAuth e [u]
      { email := some u.email, verificationCode := some code }).success = false ∧
    (verifyTwoFactorAuth e [u]
      { email := some u.email, verificationCode := some code }).status = 400 ∧
    (verifyEmail e [u] code).success = false ∧
    (verifyEmail e [u] code).status = 400 := by
  have h2f : twoFactorQueryMatch e.now u.email code u = false := by
    simp [twoFactorQueryMatch, hexp, ht, Nat.not_lt.mpr ht]
  have hml : emailQueryMatch e.now code u = false := by
    simp [emailQueryMatch, hexp, ht, Nat.not_lt.mpr ht]
  have hfal : falsyStr (some u.email) = false := by simp [falsyStr, hem]
  have hfal2 : falsyStr (some code) = false := by simp [falsyStr, hc]
  refine ⟨h2f, hml, ?_, ?_, ?_, ?_⟩ <;>
    simp [verifyTwoFactorAuth, verifyEmail, hfal, hfal2, List.find?, h2f, hml,
      errResult]

/-- Closed witness for `c4_expired_token_never_validates`: an exactly matching
code whose expiry equals the current clock is rejected by both validators. -/
theorem c4_expired_token_never_validates_witness :
    twoFactorQueryMatch highRiskExterns.now
      ({ sampleUser with
          verificationToken := some "123456"
          verificationTokenExpiresAt := some 1000000 } : UserRec).email "123456"
      { sampleUser with
        verificationToken := some "123456"
        verificationTokenExpiresAt := some 1000000 } = false ∧
    emailQueryMatch highRiskExterns.now "123456"
      { sampleUser with
        verificationToken := some "123456"
        verificationTokenExpiresAt := some 1000000 } = false ∧
    (verifyTwoFactorAuth highRiskExterns
      [{ sampleUser with
          verificationToken := some "123456"
          verificationTokenExpiresAt := some 1000000 }]
      { email := some ({ sampleUser with
          verificationToken := some "123456"
          verificationTokenExpiresAt := some 1000000 } : UserRec).email
        verificationCode := some "123456" }).success = false ∧
    (verifyTwoFactorAuth highRiskExterns
      [{ sampleUser with
          verificationToken := some "123456"
          verificationTokenExpiresAt := some 1000000 }]
      { email := some ({ sampleUser with
          verificationToken := some "123456"
          verificationTokenExpiresAt := some 1000000 } : UserRec).email
        verificationCode := some "123456" }).status = 400 ∧
    (verifyEmail highRiskExterns
      [{ sampleUser with
          verificationToken := some "123456"
          verificationTokenExpiresAt := some 1000000 }] "123456").success = false ∧
    (verifyEmail highRiskExterns
      [{ sampleUser with
          verificationToken := some "123456"
          verificationTokenExpiresAt := some 1000000 }] "123456").status = 400 :=
  c4_expired_token_never_validates highRiskExterns
    { sampleUser with
      verificationToken := some "123456"
      verificationTokenExpiresAt := some 1000000 }
    "123456" 1000000 (by decide) (by decide) (by decide) (by decide) (by decide)

/-- Helper: a gated-through login from an untrusted device persists the fresh
reset token with its 30-minute expiry and dispatches the new-device alert, in
every risk branch. -/
theorem login_newDevice_reset (e : Externs) (req : LoginRequest)
    (user : UserRec) (ctx : LoginContext) (hv : ValidLoginShape e req user ctx)
    (hdev : user.trustedDevices.contains ctx.device = false) :
    ∃ u', (login e req (some user)).userOut = some u' ∧
      u'.resetPasswordToken = some e.newResetToken ∧
      u'.resetPasswordExpiresAt = some (e.now + 30 * 60 * 1000) ∧
      EmailEvent.newDeviceAlert user.email user.name ctx
        (e.clientUrl ++ "/reset-password/" ++ e.newResetToken) ∈
        (login e req (some user)).emails := by
  obtain ⟨h1, h2, h3, h4, h5, h6⟩ := hv
  have hdev' : ctx.device ∉ user.trustedDevices := by simpa using hdev
  have hstep : deviceStep e ctx user =
      { user with
        resetPasswordToken := some e.newResetToken
        resetPasswordExpiresAt := some (e.now + 30 * 60 * 1000) } := by
    unfold deviceStep
    simp [hdev']
  have hmail : deviceEmails e ctx user =
      [EmailEvent.newDeviceAlert user.email user.name ctx
        (e.clientUrl ++ "/reset-password/" ++ e.newResetToken)] := by
    unfold deviceEmails
    simp [hdev']
  simp only [login, h1, h2, h3, h4, h5, h6, Bool.or_self, Bool.false_eq_true,
    if_false, Option.getD_some, Bool.not_true, hstep, hmail]
  split
  · exact ⟨_, rfl, rfl, rfl, by simp⟩
  · split
    · exact ⟨_, rfl, by simp [updateContextProfile], by simp [updateContextProfile],
        by simp⟩
    · exact ⟨_, rfl, by simp [updateContextProfile], by simp [updateContextProfile],
        by simp⟩

/-- C5: for every login attempt that passed the credential and captcha gates
and whose device is absent from `trustedDevices`, the fresh reset token (the
hex encoding of 20 random bytes from the external randomness source) is
stored with a 30-minute expiry and the new-device alert is dispatched with
the reset link — with no hypothesis on the risk score, hence regardless of
which of the three decision branches is subsequently taken. -/
theorem c5_new_device_side_channel (e : Externs) (req : LoginRequest)
    (user : UserRec) (ctx : LoginContext) (hv : ValidLoginShape e req user ctx)
    (hdev : user.trustedDevices.contains ctx.device = false) :
    ∃ u', (login e req (some user)).userOut = some u' ∧
      u'.resetPasswordToken = some e.newResetToken ∧
      u'.resetPasswordExpiresAt = some (e.now + 30 * 60 * 1000) ∧
      EmailEvent.newDeviceAlert user.email user.name ctx
        (e.clientUrl ++ "/reset-password/" ++ e.newResetToken) ∈
        (login e req (some user)).emails :=
  login_newDevice_reset e req user ctx hv hdev

/-- Closed witness for `c5_new_device_side_channel`: a low-risk (Allowed)
attempt from a new device still stores the reset token and alerts. -/
theorem c5_new_device_side_channel_witness :
    ∃ u', (login lowRiskExterns sampleLoginReq (some sampleUser)).userOut = some u' ∧
      u'.resetPasswordToken = some lowRiskExterns.newResetToken ∧
      u'.resetPasswordExpiresAt = some (lowRiskExterns.now + 30 * 60 * 1000) ∧
      EmailEvent.newDeviceAlert sampleUser.email sampleUser.name sampleCtx
        (lowRiskExterns.clientUrl ++ "/reset-password/" ++ lowRiskExterns.newResetToken) ∈
        (login lowRiskExterns sampleLoginReq (some sampleUser)).emails :=
  c5_new_device_side_channel lowRiskExterns sampleLoginReq sampleUser sampleCtx
    (by decide) (by decide)

/-- C6: the session cookie is set by `login` exactly when the attempt's
outcome is Allowed (risk below the MFA threshold after all gates pass), and
by `verifyTwoFactorAuth` exactly when the second factor validates; Blocked
and TwoFactorPending responses never carry session credentials. -/
theorem c6_cookie_only_on_allowed (e : Externs) (req : LoginRequest)
    (fu : Option UserRec) (db : List UserRec) (tfr : TwoFactorRequest) :
    ((login e req fu).cookieSet = true ↔
      (login e req fu).outcome = some RiskOutcome.allowed) ∧
    ((verifyTwoFactorAuth e db tfr).cookieSet = true ↔
      (verifyTwoFactorAuth e db tfr).success = true) := by
  constructor
  · unfold login
    split
    · simp [errResult]
    · split
      · simp [errResult]
      · split
        · simp [errResult]
        · split
          · simp [userErrResult, errResult]
          · split
            · simp [userErrResult, errResult]
            · split
              · simp [userErrResult, errResult]
              · dsimp only
                split
                · simp
                · split <;> simp
  · unfold verifyTwoFactorAuth
    split
    · simp [errResult]
    · split <;> simp [errResult]

/-- C7, as stated, is false: a login request with the required context absent
is answered with HTTP 500 (the unguarded `context.device` access throws and
the surrounding catch answers "Server error"), which is a server error, not a
client (4xx) error. -/
theorem c7_counterexample :
    (login highRiskExterns missingCtxReq (some sampleUser)).status = 500 ∧
    ¬ ((login highRiskExterns missingCtxReq (some sampleUser)).status < 500) := by
  decide

/-- C7 amended: for every login request that passes the credential and
captcha gates but carries no context, the attempt is rejected with a 500
server error, the persisted record is the unchanged input record (no
TrustStore mutation and no token written), no cookie is set and no email is
sent. -/
theorem c7_missing_context_rejected (e : Externs) (req : LoginRequest)
    (user : UserRec)
    (h1 : falsyStr req.email = false) (h2 : falsyStr req.password = false)
    (h3 : falsyStr req.captcha = false) (hctx : req.context = none)
    (h5 : e.bcryptCompare (req.password.getD "") user.password = true)
    (h6 : e.captchaOK (req.captcha.getD "") = true) :
    (login e req (some user)).status = 500 ∧
    (login e req (some user)).success = false ∧
    (login e req (some user)).userOut = some user ∧
    (login e req (some user)).cookieSet = false ∧
    (login e req (some user)).emails = [] ∧
    (login e req (some user)).payload = none := by
  simp [login, h1, h2, h3, hctx, h5, h6, userErrResult, errResult]

/-- Closed witness for `c7_missing_context_rejected` at a concrete
context-less request. -/
theorem c7_missing_context_rejected_witness :
    (login highRiskExterns missingCtxReq (some sampleUser)).status = 500 ∧
    (login highRiskExterns missingCtxReq (some sampleUser)).success = false ∧
    (login highRiskExterns missingCtxReq (some sampleUser)).userOut = some sampleUser ∧
    (login highRiskExterns missingCtxReq (some sampleUser)).cookieSet = false ∧
    (login highRiskExterns missingCtxReq (some sampleUser)).emails = [] ∧
    (login highRiskExterns missingCtxReq (some sampleUser)).payload = none :=
  c7_missing_context_rejected highRiskExterns missingCtxReq sampleUser
    (by decide) (by decide) (by decide) (by decide) (by decide) (by decide)

/-- C8: there is a single reset-token slot per user. The explicit
forgot-password flow overwrites `resetPasswordToken` on any input record with
its fresh token (in particular it invalidates a token pending from the
new-device login path), and the new-device login path stores its fresh token
on any gated-through attempt (in particular it invalidates a token pending
from the forgot-password flow); composing the two flows leaves only the later
flow's token. -/
theorem c8_reset_token_single_slot (e1 e2 : Externs) (req : LoginRequest)
    (user : UserRec) (ctx : LoginContext) (hv : ValidLoginShape e1 req user ctx)
    (hdev : user.trustedDevices.contains ctx.device = false)
    (em : String) (hem : em ≠ "") :
    (∀ u : UserRec, ∃ u',
      (forgotPassword e2 (some em) (some u)).userOut = some u' ∧
      u'.resetPasswordToken = some e2.newResetToken ∧
      u'.resetPasswordExpiresAt = some (e2.now + 30 * 60 * 1000)) ∧
    (∃ u1, (login e1 req (some user)).userOut = some u1 ∧
      u1.resetPasswordToken = some e1.newResetToken ∧
      ∃ u2, (forgotPassword e2 (some em) (some u1)).userOut = some u2 ∧
        u2.resetPasswordToken = some e2.newResetToken) := by
  have hfal : falsyStr (some em) = false := by simp [falsyStr, hem]
  constructor
  · intro u
    refine ⟨{ u with
        resetPasswordToken := some e2.newResetToken
        resetPasswordExpiresAt := some (e2.now + 30 * 60 * 1000) }, ?_, rfl, rfl⟩
    simp [forgotPassword, hfal]
  · obtain ⟨u1, hu1, htok, hexp, hmail⟩ := login_newDevice_reset e1 req user ctx hv hdev
    refine ⟨u1, hu1, htok, { u1 with
        resetPasswordToken := some e2.newResetToken
        resetPasswordExpiresAt := some (e2.now + 30 * 60 * 1000) }, ?_, rfl⟩
    simp [forgotPassword, hfal]

/-- Closed witness for `c8_reset_token_single_slot` with two distinct fresh
tokens. -/
theorem c8_reset_token_single_slot_witness :
    (∀ u : UserRec, ∃ u',
      (forgotPassword midRiskExterns (some "alice@example.com") (some u)).userOut
        = some u' ∧
      u'.resetPasswordToken = some midRiskExterns.newResetToken ∧
      u'.resetPasswordExpiresAt = some (midRiskExterns.now + 30 * 60 * 1000)) ∧
    (∃ u1, (login lowRiskExterns sampleLoginReq (some sampleUser)).userOut = some u1 ∧
      u1.resetPasswordToken = some lowRiskExterns.newResetToken ∧
      ∃ u2, (forgotPassword midRiskExterns (some "alice@example.com") (some u1)).userOut
          = some u2 ∧
        u2.resetPasswordToken = some midRiskExterns.newResetToken) :=
  c8_reset_token_single_slot lowRiskExterns midRiskExterns sampleLoginReq
    sampleUser sampleCtx (by decide) (by decide) "alice@example.com" (by decide)

/-- C9: issuing a second verification code overwrites the stored token field
— both via `resendVerificationCode` and via the 2FA branch of `login` — so a
previously issued code different from the fresh one no longer matches either
validation filter at any later time. -/
theorem c9_new_code_invalidates_old (e : Externs) (req : LoginRequest)
    (user : UserRec) (ctx : LoginContext) (hv : ValidLoginShape e req user ctx)
    (hlo : 5 ≤ e.evalContext ctx (deviceStep e ctx user))
    (hhi : e.evalContext ctx (deviceStep e ctx user) < 10)
    (user2 : UserRec) (hver : user2.isVerified = false)
    (em : String) (hem : em ≠ "")
    (oldCode : String) (t : Nat) (hne : oldCode ≠ e.newVerificationCode) :
    (∃ u', (resendVerificationCode e (some em) (some user2)).userOut = some u' ∧
      u'.verificationToken = some e.newVerificationCode ∧
      twoFactorQueryMatch t u'.email oldCode u' = false ∧
      emailQueryMatch t oldCode u' = false) ∧
    (∃ u', (login e req (some user)).userOut = some u' ∧
      u'.verificationToken = some e.newVerificationCode ∧
      twoFactorQueryMatch t u'.email oldCode u' = false ∧
      emailQueryMatch t oldCode u' = false) := by
  obtain ⟨h1, h2, h3, h4, h5, h6⟩ := hv
  have hhi' : ¬ 10 ≤ e.evalContext ctx (deviceStep e ctx user) := by omega
  have hne' : e.newVerificationCode ≠ oldCode := Ne.symm hne
  have hfal : falsyStr (some em) = false := by simp [falsyStr, hem]
  constructor
  · refine ⟨{ user2 with
        verificationToken := some e.newVerificationCode
        verificationTokenExpiresAt := some (e.now + 60 * 1000) }, ?_, rfl, ?_, ?_⟩
    · simp [resendVerificationCode, hfal, hver]
    · simp [twoFactorQueryMatch, hne']
    · simp [emailQueryMatch, hne']
  · refine ⟨updateContextProfile
        { deviceStep e ctx user with
          verificationToken := some e.newVerificationCode
          verificationTokenExpiresAt := some (e.now + 5 * 60 * 1000) }
        ctx (e.evalContext ctx (deviceStep e ctx user)) e.locationName e.now,
      ?_, ?_, ?_, ?_⟩
    · simp [login, h1, h2, h3, h4, h5, h6, hlo, hhi']
    · simp [updateContextProfile]
    · simp [twoFactorQueryMatch, updateContextProfile, hne']
    · simp [emailQueryMatch, updateContextProfile, hne']

/-- Closed witness for `c9_new_code_invalidates_old` with a stale code
"999999" distinct from the fresh "123456". -/
theorem c9_new_code_invalidates_old_witness :
    (∃ u', (resendVerificationCode midRiskExterns (some "alice@example.com")
        (some { sampleUser with isVerified := false })).userOut = some u' ∧
      u'.verificationToken = some midRiskExterns.newVerificationCode ∧
      twoFactorQueryMatch 5000000 u'.email "999999" u' = false ∧
      emailQueryMatch 5000000 "999999" u' = false) ∧
    (∃ u', (login midRiskExterns sampleLoginReq (some sampleUser)).userOut = some u' ∧
      u'.verificationToken = some midRiskExterns.newVerificationCode ∧
      twoFactorQueryMatch 5000000 u'.email "999999" u' = false ∧
      emailQueryMatch 5000000 "999999" u' = false) :=
  c9_new_code_invalidates_old midRiskExterns sampleLoginReq sampleUser sampleCtx
    (by decide) (by decide) (by decide) { sampleUser with isVerified := false }
    (by decide) "alice@example.com" (by decide) "999999" 5000000 (by decide)

/-- C10, as stated, is false: the `{...user._doc}` spread in the success
responses of `login` and `verifyTwoFactorAuth` strips only the six
enumerated fields, leaving `contextLogs` — TrustStore content whose entries
carry every prior attempt's ip and device — in the payload. At a concrete
allowed login, the returned payload's `contextLogs` is the persisted
TrustStore's context log and holds the attempt's ip and device. -/
theorem c10_counterexample :
    ∃ p u', (login lowRiskExterns sampleLoginReq (some sampleUser)).payload = some p ∧
      (login lowRiskExterns sampleLoginReq (some sampleUser)).userOut = some u' ∧
      p.contextLogs = some (trustStoreOf u').contextLogs ∧
      p.contextLogs = some
        [{ ip := "9.9.9.9"
           device := "chrome-win-new"
           location := { lat := 10, lon := 20 }
           locationName := "Testville"
           timestamp := 1000000
           riskScore := 0 }] := by
  refine ⟨_, _, rfl, rfl, ?_, ?_⟩ <;> decide

/-- C10 amended: every user object attached to a success response of `login`
or of `verifyTwoFactorAuth` has `password`, `trustedIPs`, `trustedDevices`,
`locations`, `behavioralProfile` and `riskScore` set to `undefined`, but the
`contextLogs` field passes through the spread un-stripped: the payload's
context log equals the persisted record's, so that part of the TrustStore is
included in the success payload. -/
theorem c10_six_fields_stripped_log_included (e : Externs) (req : LoginRequest)
    (fu : Option UserRec) (db : List UserRec) (tfr : TwoFactorRequest) :
    (∀ p, (login e req fu).payload = some p →
      p.password = none ∧ p.trustedIPs = none ∧ p.trustedDevices = none ∧
      p.locations = none ∧ p.behavioralProfile = none ∧ p.riskScore = none ∧
      ∃ u', (login e req fu).userOut = some u' ∧
        p.contextLogs = some u'.contextLogs) ∧
    (∀ p, (verifyTwoFactorAuth e db tfr).payload = some p →
      p.password = none ∧ p.trustedIPs = none ∧ p.trustedDevices = none ∧
      p.locations = none ∧ p.behavioralProfile = none ∧ p.riskScore = none ∧
      ∃ u', (verifyTwoFactorAuth e db tfr).userOut = some u' ∧
        p.contextLogs = some u'.contextLogs) := by
  constructor
  · generalize hr : login e req fu = r
    unfold login at hr
    split at hr
    · subst hr
      intro p hp
      simp [errResult] at hp
    · split at hr
      · subst hr
        intro p hp
        simp [errResult] at hp
      · split at hr
        · subst hr
          intro p hp
          simp [errResult] at hp
        · split at hr
          · subst hr
            intro p hp
            simp [userErrResult, errResult] at hp
          · split at hr
            · subst hr
              intro p hp
              simp [userErrResult, errResult] at hp
            · split at hr
              · subst hr
                intro p hp
                simp [userErrResult, errResult] at hp
              · dsimp only at hr
                split at hr
                · subst hr
                  intro p hp
                  simp at hp
                · split at hr
                  · subst hr
                    intro p hp
                    simp at hp
                  · subst hr
                    intro p hp
                    simp only [Option.some.injEq] at hp
                    subst hp
                    exact ⟨rfl, rfl, rfl, rfl, rfl, rfl, _, rfl, rfl⟩
  · generalize hr : verifyTwoFactorAuth e db tfr = r
    unfold verifyTwoFactorAuth at hr
    split at hr
    · subst hr
      intro p hp
      simp [errResult] at hp
    · split at hr
      · subst hr
        intro p hp
        simp [errResult] at hp
      · subst hr
        intro p hp
        simp only [Option.some.injEq] at hp
        subst hp
        exact ⟨rfl, rfl, rfl, rfl, rfl, rfl, _, rfl, rfl⟩

/-- Closed witness for `c10_six_fields_stripped_log_included` at a concrete
allowed login whose response carries a payload. -/
theorem c10_six_fields_stripped_log_included_witness :
    ∃ p, (login lowRiskExterns sampleLoginReq (some sampleUser)).payload = some p ∧
      p.password = none ∧ p.trustedIPs = none ∧ p.trustedDevices = none ∧
      p.locations = none ∧ p.behavioralProfile = none ∧ p.riskScore = none ∧
      ∃ u', (login lowRiskExterns sampleLoginReq (some sampleUser)).userOut = some u' ∧
        p.contextLogs = some u'.contextLogs := by
  refine ⟨_, rfl, ?_⟩
  exact (c10_six_fields_stripped_log_included lowRiskExterns sampleLoginReq
    (some sampleUser) [] { email := none, verificationCode := none }).1 _ rfl

end BankFraud
